import Mathlib

/-!
Verification of the aegis-ai-gateway request pipeline.

Shallow embedding of the gateway's Go source:
* `internal/types/classification.go` — the classification lattice.
* `internal/router` (`circuit_test.go` companion source, `part_015`) —
  route eligibility, the adapter registry, circuit breakers.
* `internal/ratelimit/limiter.go` — the sliding-window limiter script.
* `internal/ratelimit` budget tracker (`part_011`) — daily spend counter.
* `internal/filter` chain and PII client (`part_007`).
* `internal/router/adapters/anthropic.go` — streaming chunk translation.
* `internal/auth` middleware (`part_009`) and `internal/httputil`
  error writers (`part_012`).

Machine integers are modelled as `Int`/`Nat` (no overflow is reachable in
the modelled code paths: counters and timestamps stay far below 2^63).
Go `map` values are modelled as functions into `Option`, Go slices as
`List`, and fallible calls as `Except`/`Option`.
-/

namespace Aegis

/-! ## Classification lattice (`internal/types/classification.go`) -/

/-- `Classification.Level` from `classification.go`: numeric level for
comparison; higher is more restricted; unknown strings map to `-1`. -/
def classificationLevel (c : String) : Int :=
  if c = "PUBLIC" then 0
  else if c = "INTERNAL" then 1
  else if c = "CONFIDENTIAL" then 2
  else if c = "RESTRICTED" then 3
  else -1

/-- `Classification.Allows`: `c` permits data at level `d` iff
`c.Level() >= d.Level()`. -/
def classificationAllows (c d : String) : Bool :=
  classificationLevel c ≥ classificationLevel d

/-- `ParseClassification`: succeeds exactly on the four tier names. -/
def parseClassification (s : String) : Option String :=
  if s = "PUBLIC" ∨ s = "INTERNAL" ∨ s = "CONFIDENTIAL" ∨ s = "RESTRICTED" then
    some s
  else
    none

/-! ## Model mapping and route eligibility (`internal/router`) -/

/-- `config.ProviderRoute`: one candidate route of a model mapping. -/
structure ProviderRoute where
  provider : String
  model : String
  classificationCeiling : String
deriving DecidableEq, Repr

/-- `config.ModelMapping`: primary route plus ordered fallbacks. -/
structure ModelMapping where
  primary : ProviderRoute
  fallback : List ProviderRoute
deriving DecidableEq, Repr

/-- `routeEligible` from `internal/router` (`circuit_test.go` companion
source, lines 329–342): empty ceiling allows all; a non-empty ceiling that
fails to parse denies; an unparseable request classification is allowed
(fail-open for routing labels); otherwise compare levels. -/
def routeEligible (route : ProviderRoute) (classification : String) : Bool :=
  if route.classificationCeiling = "" then
    true
  else
    match parseClassification route.classificationCeiling with
    | none => false
    | some ceiling =>
      match parseClassification classification with
      | none => true
      | some reqClass => classificationAllows ceiling reqClass

/-- Errors `ResolveRoute` can return. -/
inductive RouteError where
  | unknownModel
  | noEligibleProvider
deriving DecidableEq, Repr

/-- A candidate qualifies when its ceiling permits the request tier, its
provider adapter is registered, and its provider's circuit breaker allows
traffic. The registry and health tracker are abstracted as predicates on
provider names (`Registry.Get` present / `HealthTracker.IsAvailable`). -/
def routeQualifies (registered healthAllows : String → Bool)
    (classification : String) (c : ProviderRoute) : Bool :=
  routeEligible c classification && registered c.provider
    && healthAllows c.provider

/-- Modelled from the spec: the fallback loop of the current five-argument
`ResolveRoute` (absent from the provided sources; its tests live in
`health_test.go` and its caller in the handler). Walks the fallback list in
order and returns the first qualifying candidate. -/
def resolveFallbacks (registered healthAllows : String → Bool)
    (classification : String) : List ProviderRoute → Option (String × String)
  | [] => none
  | fb :: rest =>
    if routeQualifies registered healthAllows classification fb then
      some (fb.provider, fb.model)
    else
      resolveFallbacks registered healthAllows classification rest

/-- Modelled from the spec: the current `ResolveRoute(modelsCfg, registry,
healthTracker, modelName, classification)` (absent from the provided
sources; tested by `health_test.go` and called by the handler). Looks the
alias up in the mapping, tries the primary, then the fallbacks in order;
each candidate must be classification-eligible, registered, and allowed by
its circuit breaker. `routeEligible` is taken from the in-tree source. -/
def resolveRoute (models : String → Option ModelMapping)
    (registered healthAllows : String → Bool)
    (modelName classification : String) :
    Except RouteError (String × String) :=
  match models modelName with
  | none => Except.error RouteError.unknownModel
  | some mapping =>
    if routeQualifies registered healthAllows classification mapping.primary then
      Except.ok (mapping.primary.provider, mapping.primary.model)
    else
      match resolveFallbacks registered healthAllows classification
          mapping.fallback with
      | some r => Except.ok r
      | none => Except.error RouteError.noEligibleProvider

/-! ## Circuit breaker (`internal/router`, `circuit_test.go` companion
source, lines 136–259) -/

/-- `CircuitState`. -/
inductive CircuitState where
  | closed
  | opened
  | halfOpen
deriving DecidableEq, Repr

/-- `CircuitBreaker`. Time is modelled as `Int` nanoseconds;
`time.Since(t)` at query time `now` is `now - t`. -/
structure CircuitBreaker where
  state : CircuitState
  failures : Nat
  successes : Nat
  lastFailure : Int
  openedAt : Int
  failureThreshold : Nat
  recoveryProbeInterval : Int
deriving DecidableEq, Repr

/-- `NewCircuitBreaker`: starts closed with zeroed counters. -/
def newCircuitBreaker (failureThreshold : Nat)
    (recoveryProbeInterval : Int) : CircuitBreaker :=
  { state := CircuitState.closed
    failures := 0
    successes := 0
    lastFailure := 0
    openedAt := 0
    failureThreshold := failureThreshold
    recoveryProbeInterval := recoveryProbeInterval }

/-- `currentState`: returns the state, transitioning Open → Half-Open when
the probe interval has elapsed since `openedAt` (a mutating query). -/
def CircuitBreaker.currentState (cb : CircuitBreaker) (now : Int) :
    CircuitBreaker × CircuitState :=
  if cb.state = CircuitState.opened ∧
      now - cb.openedAt ≥ cb.recoveryProbeInterval then
    let cb' := { cb with state := CircuitState.halfOpen }
    (cb', CircuitState.halfOpen)
  else
    (cb, cb.state)

/-- `State()`: the public state query (runs `currentState`). -/
def CircuitBreaker.stateQuery (cb : CircuitBreaker) (now : Int) :
    CircuitBreaker × CircuitState :=
  cb.currentState now

/-- `Allow()`: Closed and Half-Open admit traffic, Open rejects. -/
def CircuitBreaker.allow (cb : CircuitBreaker) (now : Int) :
    CircuitBreaker × Bool :=
  let (cb', s) := cb.currentState now
  match s with
  | CircuitState.closed => (cb', true)
  | CircuitState.halfOpen => (cb', true)
  | CircuitState.opened => (cb', false)

/-- `RecordSuccess`: a Half-Open success closes the circuit and zeroes both
counters; a Closed success only bumps the success counter (the failure
counter is deliberately not reset); in Open nothing changes. -/
def CircuitBreaker.recordSuccess (cb : CircuitBreaker) : CircuitBreaker :=
  match cb.state with
  | CircuitState.halfOpen =>
    { cb with state := CircuitState.closed, failures := 0, successes := 0 }
  | CircuitState.closed => { cb with successes := cb.successes + 1 }
  | CircuitState.opened => cb

/-- `RecordFailure`: always bumps `failures` and stamps `lastFailure`; in
Closed, reaching the threshold opens the circuit and stamps `openedAt`; a
Half-Open failure reopens and re-stamps `openedAt`. -/
def CircuitBreaker.recordFailure (cb : CircuitBreaker) (now : Int) :
    CircuitBreaker :=
  let cb1 := { cb with failures := cb.failures + 1, lastFailure := now }
  match cb.state with
  | CircuitState.closed =>
    if cb1.failures ≥ cb1.failureThreshold then
      { cb1 with state := CircuitState.opened, openedAt := now }
    else
      cb1
  | CircuitState.halfOpen =>
    { cb1 with state := CircuitState.opened, openedAt := now }
  | CircuitState.opened => cb1

/-! ## Sliding-window rate limiter (`internal/ratelimit/limiter.go`)

Time is modelled in integer microseconds (the script's score unit,
`UnixMicro`); `window` is the window length in microseconds, so the Go
`int64(window.Seconds()) + 1` TTL is `window / 1000000 + 1` and the
`window / 2` retry-after keeps its meaning. The sorted set is a list of
`(score, member-disambiguator)` pairs; the `math.random(1000000)`
member suffix is the abstract `disamb` argument. The nil-client and
Redis-transport-error fail-open branches of `Check` are not modelled
(the claim is about the normal script path). -/

/-- The counter-store key state touched by the script: its sorted-set
entries and the TTL last applied by `EXPIRE`. -/
structure ZSetState where
  entries : List (Int × Nat)
  ttl : Option Int
deriving DecidableEq, Repr

/-- `slidingWindowScript`: atomically prune scores `≤ window_start`
(`ZREMRANGEBYSCORE -inf window_start`), count, and either admit (insert the
arrival, set TTL, return `(count+1, 1)`) or deny (set TTL, return
`(count, 0)`). -/
def slidingWindowScript (st : ZSetState)
    (windowStart now limit ttl : Int) (disamb : Nat) :
    ZSetState × (Int × Bool) :=
  let kept := st.entries.filter (fun e => decide (windowStart < e.1))
  let count : Int := kept.length
  if count < limit then
    ({ entries := (now, disamb) :: kept, ttl := some ttl }, (count + 1, true))
  else
    ({ entries := kept, ttl := some ttl }, (count, false))

/-- `LimitResult` from `limiter.go`. -/
structure LimitResult where
  allowed : Bool
  remaining : Int
  resetAt : Int
  retryAfter : Int
deriving DecidableEq, Repr

/-- `Limiter.Check`: runs the script with `window_start = now - window` and
TTL `window+1` seconds, then clamps remaining at zero, reports
`reset-at = now + window`, and a conservative `window / 2` retry-after on
denial. -/
def limiterCheck (st : ZSetState) (now limit window : Int) (disamb : Nat) :
    ZSetState × LimitResult :=
  let windowStart := now - window
  let ttlSecs := window / 1000000 + 1
  let res := slidingWindowScript st windowStart now limit ttlSecs disamb
  let count := res.2.1
  let allowed := res.2.2
  let remaining0 := limit - count
  let remaining := if remaining0 < 0 then 0 else remaining0
  let retryAfter := if allowed then 0 else window / 2
  (res.1,
   { allowed := allowed, remaining := remaining,
     resetAt := now + window, retryAfter := retryAfter })

/-! ## Daily budget tracker (`internal/ratelimit`, `part_011`)

Wall-clock time is modelled as `Nat` seconds since the Unix epoch (UTC);
the `YYYY-MM-DD` key component is represented by the UTC day index
`now / 86400` (in bijection with the formatted date), and `Expire` is
recorded as the absolute expiry instant `now + ttl`. -/

/-- The budget counter store: Redis integer keys (absent keys read as 0,
as `INCRBY` does) and their absolute expiry instants. -/
structure BudgetStore where
  counters : String → Int
  expiry : String → Option Nat

/-- `dailyBudgetKey`: `aegis:budget:daily:{team_id}:{UTC day}`. -/
def dailyBudgetKey (teamID : String) (day : Nat) : String :=
  "aegis:budget:daily:" ++ teamID ++ ":" ++ toString day

/-- Start of the next UTC day, in seconds
(`time.Date(y, m, d+1, 0, 0, 0, 0, UTC)` of `RecordSpend`). -/
def endOfDayUTC (now : Nat) : Nat :=
  (now / 86400 + 1) * 86400

/-- `BudgetTracker.RecordSpend`: with a nil client or a non-positive cost
this is a no-op; otherwise pipeline `INCRBY cost` on the daily key together
with `EXPIRE` to end-of-day UTC plus a one-hour buffer. -/
def recordSpend (rdbNil : Bool) (st : BudgetStore) (now : Nat)
    (teamID : String) (costCents : Int) : BudgetStore :=
  if rdbNil ∨ costCents ≤ 0 then st
  else
    let key := dailyBudgetKey teamID (now / 86400)
    { counters := fun k =>
        if k = key then st.counters k + costCents else st.counters k
      expiry := fun k =>
        if k = key then some (endOfDayUTC now + 3600) else st.expiry k }

/-- Modelled from the spec: the non-streaming success path of the handler
(`ChatCompletions` step "Record daily spend"; the call site is absent from
the provided sources, which predate it — only `RecordSpend` itself and its
tests are in-tree). After a successful completion the handler records the
response's estimated cost, in cents, against the principal's team. -/
def completionRecordSpend (st : BudgetStore) (now : Nat)
    (teamID : String) (costCents : Int) : BudgetStore :=
  recordSpend false st now teamID costCents

/-! ## Anthropic stream-chunk translation
(`internal/router/adapters/anthropic.go`)

`json.Unmarshal` of the SSE data payload is modelled at the parsed level:
an unparseable payload is `none`, a parsed payload is `some` of the event
struct the adapter decodes into. The emitted OpenAI-format chunk is
modelled as the structure that `json.Marshal` serializes (marshalling of
these structs cannot fail, so the error return is not modelled). -/

/-- The `delta` object of the decoded Anthropic event. -/
structure AnthropicDelta where
  type : String
  text : String
  stopReason : String
deriving DecidableEq, Repr

/-- The event struct `TransformStreamChunk` decodes each payload into. -/
structure AnthropicEvent where
  type : String
  index : Int
  delta : AnthropicDelta
deriving DecidableEq, Repr

/-- `openAIDelta`. -/
structure OpenAIDelta where
  role : String
  content : String
deriving DecidableEq, Repr

/-- `openAIStreamChoice`. -/
structure OpenAIStreamChoice where
  index : Int
  delta : OpenAIDelta
  finishReason : Option String
deriving DecidableEq, Repr

/-- `openAIStreamChunk`. -/
structure OpenAIStreamChunk where
  choices : List OpenAIStreamChoice
deriving DecidableEq, Repr

/-- The three possible outcomes of `TransformStreamChunk`: `nil` bytes
(skip), a marshalled canonical chunk, or the literal `[DONE]` sentinel. -/
inductive StreamChunkResult where
  | skip
  | emit (chunk : OpenAIStreamChunk)
  | doneSentinel
deriving DecidableEq, Repr

/-- `mapStopReason`: `end_turn` → `stop`, `max_tokens` → `length`,
`stop_sequence` → `stop`, anything else passes through. -/
def mapStopReason (reason : String) : String :=
  if reason = "end_turn" then "stop"
  else if reason = "max_tokens" then "length"
  else if reason = "stop_sequence" then "stop"
  else reason

/-- `AnthropicAdapter.TransformStreamChunk`: dispatch on the decoded event
type; `none` stands for a payload `json.Unmarshal` rejects. -/
def transformStreamChunk (parsed : Option AnthropicEvent) :
    StreamChunkResult :=
  match parsed with
  | none => StreamChunkResult.skip
  | some event =>
    if event.type = "content_block_delta" then
      if event.delta.type = "text_delta" then
        StreamChunkResult.emit
          { choices := [{ index := event.index
                          delta := { role := "", content := event.delta.text }
                          finishReason := none }] }
      else
        StreamChunkResult.skip
    else if event.type = "message_delta" then
      StreamChunkResult.emit
        { choices := [{ index := 0
                        delta := { role := "", content := "" }
                        finishReason :=
                          some (mapStopReason event.delta.stopReason) }] }
    else if event.type = "message_stop" then
      StreamChunkResult.doneSentinel
    else
      StreamChunkResult.skip

/-! ## Canonical request, filter chain, and handler stages
(`internal/types/request.go`, `internal/filter` — `part_007`, and the
handler `ChatCompletions` — `part_013`) -/

/-- `types.Message`. -/
structure Message where
  role : String
  content : String
  name : String
deriving DecidableEq, Repr

/-- `types.AegisRequest` — the fields the modelled pipeline reads (the
optional sampling parameters, timestamps, and token estimates are carried
opaquely by the Go struct and elided here). -/
structure AegisRequest where
  requestID : String
  organizationID : String
  teamID : String
  userID : String
  apiKeyID : String
  classification : String
  model : String
  messages : List Message
  stream : Bool
  project : String
  preferProvider : String
  traceContext : String
deriving DecidableEq, Repr

/-- `filter.Action`. -/
inductive FilterAction where
  | pass
  | flag
  | redact
  | block
deriving DecidableEq, Repr

/-- `filter.Result`. The Go `Score` field is a `float64`; it is carried as
a rational since the modelled code only stores and forwards it. -/
structure FilterResult where
  action : FilterAction
  filterName : String
  message : String
  detections : Nat
  score : Rat
deriving DecidableEq, Repr

/-- `filter.Filter` — a named, possibly disabled content filter whose
`ScanRequest` is modelled as a pure function of the request. -/
structure ContentFilter where
  name : String
  enabled : Bool
  scan : AegisRequest → FilterResult

/-- `Chain.Run`: execute enabled filters in order, collect each produced
result, and stop at the first Block, returning it as the short-circuit
result. The collected list records exactly the filters that were
executed (the Go loop appends each result before testing for Block). -/
def chainRun (req : AegisRequest) :
    List ContentFilter → List FilterResult × Option FilterResult
  | [] => ([], none)
  | f :: fs =>
    if f.enabled then
      let r := f.scan req
      if r.action = FilterAction.block then
        ([r], some r)
      else
        let rest := chainRun req fs
        (r :: rest.1, rest.2)
    else
      chainRun req fs

/-- The externally visible outcomes of the handler stages modelled from
`ChatCompletions` (`part_013`): reject the body, short-circuit on a filter
Block, fail with no provider, or dispatch to a resolved provider. -/
inductive ChatOutcome where
  | badRequest (message : String)
  | contentBlocked (res : FilterResult)
  | serviceUnavailable
  | dispatchTo (provider : String) (providerModel : String)
deriving DecidableEq, Repr

/-- The `ChatCompletions` pipeline after enrichment (`part_013`): validate
`model` and `messages`, run the filter chain and return 451 on a Block,
resolve the route (503 on failure), else dispatch to the resolved
provider. -/
def chatCompletionsStage (chain : List ContentFilter)
    (models : String → Option ModelMapping)
    (registered healthAllows : String → Bool)
    (req : AegisRequest) : ChatOutcome :=
  if req.model = "" then
    ChatOutcome.badRequest "model is required"
  else if req.messages = [] then
    ChatOutcome.badRequest "messages is required"
  else
    match (chainRun req chain).2 with
    | some blocked => ChatOutcome.contentBlocked blocked
    | none =>
      match resolveRoute models registered healthAllows
          req.model req.classification with
      | Except.error _ => ChatOutcome.serviceUnavailable
      | Except.ok pm => ChatOutcome.dispatchTo pm.1 pm.2

/-- Concrete request fixture used by witnesses. -/
def sampleRequest : AegisRequest :=
  { requestID := "r1", organizationID := "o", teamID := "t", userID := ""
    apiKeyID := "k", classification := "INTERNAL", model := "gpt-4o"
    messages := [{ role := "user", content := "hello", name := "" }]
    stream := false, project := "", preferProvider := "", traceContext := "" }

/-- Witness fixture: a disabled secrets filter (would block if enabled). -/
def sampleSecretsOff : ContentFilter :=
  { name := "secrets", enabled := false
    scan := fun _ =>
      { action := FilterAction.block, filterName := "secrets"
        message := "off", detections := 1, score := 0 } }

/-- Witness fixture: an enabled filter that flags. -/
def sampleInjectionFlag : ContentFilter :=
  { name := "injection", enabled := true
    scan := fun _ =>
      { action := FilterAction.flag, filterName := "injection"
        message := "", detections := 1, score := 0 } }

/-- Witness fixture: an enabled filter that blocks. -/
def samplePiiBlock : ContentFilter :=
  { name := "pii", enabled := true
    scan := fun _ =>
      { action := FilterAction.block, filterName := "pii"
        message := "PII detected", detections := 2, score := 0 } }

/-- Witness fixture: an enabled filter that passes. -/
def samplePolicyPass : ContentFilter :=
  { name := "policy", enabled := true
    scan := fun _ =>
      { action := FilterAction.pass, filterName := "policy"
        message := "", detections := 0, score := 0 } }

/-! ## PII filter client (`part_007`, package `pii`)

The gRPC `ScanPII` call is modelled as a function from a message to
`Except Unit ScanPIIResponse`; `Except.error` is a transport error. A nil
`grpcClient` (the filter enabled without a live connection) is the
`connected := false` case. -/

/-- The fields of `ScanPIIResponse` the client reads: the detected flag
and the number of detections (`len(resp.Detections)`). -/
structure ScanPIIResponse where
  detected : Bool
  detections : Nat
deriving DecidableEq, Repr

/-- `classificationAction` from the `pii` package: zero detections pass;
otherwise RESTRICTED and CONFIDENTIAL block, INTERNAL flags, and the
default (PUBLIC and anything else) flags. -/
def classificationAction (classification : String) (detections : Nat) :
    FilterAction :=
  if detections = 0 then FilterAction.pass
  else if classification = "RESTRICTED" ∨ classification = "CONFIDENTIAL" then
    FilterAction.block
  else if classification = "INTERNAL" then FilterAction.flag
  else FilterAction.flag

/-- The pass result the PII client returns (zero values elsewhere). -/
def piiPassResult : FilterResult :=
  { action := FilterAction.pass, filterName := "pii", message := ""
    detections := 0, score := 0 }

/-- The fail-closed result on a transport error. -/
def piiBlockUnavailable : FilterResult :=
  { action := FilterAction.block, filterName := "pii"
    message := "PII service unavailable", detections := 0, score := 0 }

/-- The fail-closed result when no gRPC connection exists. -/
def piiBlockNotConnected : FilterResult :=
  { action := FilterAction.block, filterName := "pii"
    message := "PII service not connected", detections := 0, score := 0 }

/-- The block result when PII is detected under a blocking tier. -/
def piiDetectedBlock (n : Nat) : FilterResult :=
  { action := FilterAction.block, filterName := "pii"
    message := "PII detected: " ++ toString n ++ " entities found"
    detections := n, score := 0 }

/-- The flag result when PII is detected under a flagging tier. -/
def piiDetectedFlag (n : Nat) : FilterResult :=
  { action := FilterAction.flag, filterName := "pii", message := ""
    detections := n, score := 0 }

/-- The per-message loop of `Client.ScanRequest`: one RPC per message; a
transport error applies the fail-open/fail-closed rule; a detected
response maps through `classificationAction`; otherwise continue. -/
def piiScanLoop (failOpen : Bool) (classification : String)
    (rpc : Message → Except Unit ScanPIIResponse) :
    List Message → FilterResult
  | [] => piiPassResult
  | m :: ms =>
    match rpc m with
    | Except.error _ =>
      if failOpen then piiPassResult else piiBlockUnavailable
    | Except.ok resp =>
      if resp.detected then
        if classificationAction classification resp.detections =
            FilterAction.block then
          piiDetectedBlock resp.detections
        else if classificationAction classification resp.detections =
            FilterAction.flag then
          piiDetectedFlag resp.detections
        else
          piiScanLoop failOpen classification rpc ms
      else
        piiScanLoop failOpen classification rpc ms

/-- `Client.ScanRequest`: without a live connection, apply the fail-open
rule; otherwise scan each message in order. -/
def piiScanRequest (connected failOpen : Bool)
    (rpc : Message → Except Unit ScanPIIResponse)
    (req : AegisRequest) : FilterResult :=
  if connected = false then
    if failOpen then piiPassResult else piiBlockNotConnected
  else
    piiScanLoop failOpen req.classification rpc req.messages

/-! ## Preferred-provider hint (spec-modelled)

The `X-Aegis-Prefer-Provider` header is read into
`AegisRequest.PreferProvider` by the handler; the re-ordering it induces
on the candidate list is absent from the provided sources (only the header
extraction and the field declaration are in-tree) and is modelled from the
spec below. -/

/-- Modelled from the spec: the preferred-provider hint re-orders the
candidate list only when it names a provider already in it, moving that
provider's candidates to the front (stably); otherwise the list is
unchanged. -/
def applyProviderHint (hint : String) (candidates : List ProviderRoute) :
    List ProviderRoute :=
  if hint ≠ "" ∧ candidates.any (fun c => c.provider = hint) then
    candidates.filter (fun c => c.provider = hint) ++
      candidates.filter (fun c => ¬c.provider = hint)
  else
    candidates

/-- Modelled from the spec: route resolution with the hint applied — walk
the re-ordered `[primary] ++ fallback` list with the same per-candidate
qualification as `resolveRoute`. -/
def resolveRouteHinted (models : String → Option ModelMapping)
    (registered healthAllows : String → Bool)
    (hint modelName classification : String) :
    Except RouteError (String × String) :=
  match models modelName with
  | none => Except.error RouteError.unknownModel
  | some mapping =>
    match resolveFallbacks registered healthAllows classification
        (applyProviderHint hint (mapping.primary :: mapping.fallback)) with
    | some r => Except.ok r
    | none => Except.error RouteError.noEligibleProvider

/-- Witness fixture: an `openai` route with a CONFIDENTIAL ceiling. -/
def routeOpenAIConf : ProviderRoute :=
  { provider := "openai", model := "gpt-4o"
    classificationCeiling := "CONFIDENTIAL" }

/-- Witness fixture: an `anthropic` route with a CONFIDENTIAL ceiling. -/
def routeAnthropicConf : ProviderRoute :=
  { provider := "anthropic", model := "claude-sonnet"
    classificationCeiling := "CONFIDENTIAL" }

/-- Witness fixture: a single-alias model mapping. -/
def modelsOpenAIOnly : String → Option ModelMapping := fun a =>
  if a = "gpt-4o" then
    some { primary := routeOpenAIConf, fallback := [] }
  else
    none

/-! ## Auth middleware and unified error writers
(`part_009` auth middleware, `part_012` `httputil`) -/

/-- `httputil.APIErrorBody` (`Type` is rendered `errType`). -/
structure APIErrorBody where
  message : String
  errType : String
  code : String
  aegisReqID : String
deriving DecidableEq, Repr

/-- The observable effect of `httputil.WriteError`: status code plus the
encoded error body. -/
structure HTTPErrorResponse where
  status : Nat
  body : APIErrorBody
deriving DecidableEq, Repr

/-- `WriteError`. -/
def writeError (requestID : String) (statusCode : Nat)
    (errType code message : String) : HTTPErrorResponse :=
  { status := statusCode
    body := { message := message, errType := errType, code := code
              aegisReqID := requestID } }

/-- `WriteAuthError`: 401 `authentication_error` / `invalid_api_key`. -/
def writeAuthError (requestID message : String) : HTTPErrorResponse :=
  writeError requestID 401 "authentication_error" "invalid_api_key" message

/-- `WriteInternalError`: 500 `server_error` / `internal_error`. -/
def writeInternalError (requestID message : String) : HTTPErrorResponse :=
  writeError requestID 500 "server_error" "internal_error" message

/-- `auth.KeyMetadata` — the identity fields the middleware copies into
the request context (limits and timestamps elided; the middleware only
forwards them). -/
structure KeyMetadata where
  id : String
  organizationID : String
  teamID : String
  userID : String
  maxClassification : String
  allowedModels : List String
deriving DecidableEq, Repr

/-- The middleware's decision: reject with an error response, or proceed
with the resolved principal. -/
inductive AuthDecision where
  | denied (resp : HTTPErrorResponse)
  | proceed (meta : KeyMetadata)
deriving DecidableEq, Repr

/-- `strings.TrimPrefix(s, "Bearer ")`, modelled on the character list
(`"Bearer "` is 7 characters): remove the leading `Bearer ` when present,
else return the string unchanged. -/
def trimBearer (s : String) : String :=
  if s.data.take 7 = "Bearer ".data then String.mk (s.data.drop 7) else s

/-- `auth.Middleware` (`part_009`): extract the Bearer token
(`strings.TrimPrefix`), hash it, and look it up in the key store. A store
error yields `WriteInternalError`; a nil principal yields
`WriteAuthError "Invalid API key"`. `hashKey` abstracts `HashKey`
(SHA-256 hex) and `lookup` abstracts `KeyStore.Lookup`, whose
`Except.error` is an authoritative-store failure and whose `Except.ok
none` is an unknown, expired, or revoked key. -/
def authMiddleware (hashKey : String → String)
    (lookup : String → Except Unit (Option KeyMetadata))
    (reqID authHeader : String) : AuthDecision :=
  if authHeader = "" then
    AuthDecision.denied (writeAuthError reqID
      "Missing Authorization header. Use: Authorization: Bearer <api-key>")
  else
    let token := trimBearer authHeader
    if token = authHeader then
      AuthDecision.denied (writeAuthError reqID
        "Invalid Authorization format. Use: Authorization: Bearer <api-key>")
    else if token = "" then
      AuthDecision.denied (writeAuthError reqID "Empty API key")
    else
      match lookup (hashKey token) with
      | Except.error _ =>
        AuthDecision.denied (writeInternalError reqID
          "Internal error during authentication")
      | Except.ok none =>
        AuthDecision.denied (writeAuthError reqID "Invalid API key")
      | Except.ok (some meta) => AuthDecision.proceed meta

/-! ## Theorems -/

/-- The candidate walk is first-match search over `[primary] ++ fallback`. -/
theorem resolveFallbacks_eq_find (registered healthAllows : String → Bool)
    (classification : String) (cs : List ProviderRoute) :
    resolveFallbacks registered healthAllows classification cs =
      (cs.find? (routeQualifies registered healthAllows classification)).map
        (fun c => (c.provider, c.model)) := by
  induction cs with
  | nil => rfl
  | cons fb rest ih =>
    by_cases h : routeQualifies registered healthAllows classification fb
    · simp [resolveFallbacks, List.find?, h]
    · simp only [resolveFallbacks, if_neg h, ih, List.find?]
      rw [Bool.eq_false_iff.mpr h]

/-- C1: for a known alias, route resolution returns the first candidate of
`[primary] ++ fallback` that is classification-eligible, registered, and
breaker-allowed, and the `no_eligible_provider` error exactly when no
candidate qualifies. -/
theorem resolveRoute_first_qualifying (models : String → Option ModelMapping)
    (registered healthAllows : String → Bool)
    (modelName classification : String) (mapping : ModelMapping)
    (h : models modelName = some mapping) :
    resolveRoute models registered healthAllows modelName classification =
      match (mapping.primary :: mapping.fallback).find?
          (routeQualifies registered healthAllows classification) with
      | some c => Except.ok (c.provider, c.model)
      | none => Except.error RouteError.noEligibleProvider := by
  unfold resolveRoute
  rw [h]
  by_cases hp : routeQualifies registered healthAllows classification
      mapping.primary
  · simp [List.find?, hp]
  · simp only [if_neg hp,
      resolveFallbacks_eq_find registered healthAllows classification,
      List.find?]
    rw [Bool.eq_false_iff.mpr hp]
    cases mapping.fallback.find?
        (routeQualifies registered healthAllows classification) with
    | none => rfl
    | some c => rfl

/-- Witness for C1 on the spec's S3 scenario: primary `openai` is
classification-ineligible for a RESTRICTED request, so resolution walks to
the eligible fallback `internal_vllm`/`llama-70b`. -/
theorem resolveRoute_first_qualifying_witness :
    resolveRoute
      (fun a => if a = "test-model" then
        some { primary :=
                { provider := "openai", model := "gpt-4o",
                  classificationCeiling := "INTERNAL" },
               fallback :=
                [{ provider := "internal_vllm", model := "llama-70b",
                   classificationCeiling := "RESTRICTED" }] }
        else none)
      (fun p => p = "openai" ∨ p = "internal_vllm")
      (fun _ => true) "test-model" "RESTRICTED" =
      Except.ok ("internal_vllm", "llama-70b") := by
  have := resolveRoute_first_qualifying
    (fun a => if a = "test-model" then
      some { primary :=
              { provider := "openai", model := "gpt-4o",
                classificationCeiling := "INTERNAL" },
             fallback :=
              [{ provider := "internal_vllm", model := "llama-70b",
                 classificationCeiling := "RESTRICTED" }] }
      else none)
    (fun p => p = "openai" ∨ p = "internal_vllm")
    (fun _ => true) "test-model" "RESTRICTED"
    { primary :=
        { provider := "openai", model := "gpt-4o",
          classificationCeiling := "INTERNAL" },
      fallback :=
        [{ provider := "internal_vllm", model := "llama-70b",
           classificationCeiling := "RESTRICTED" }] }
    (by decide)
  rw [this]
  rfl

/-- C4: route eligibility against the classification lattice.
With both the ceiling and the request tier parseable, eligibility is
exactly `ceiling ≥ tier`; a route whose non-empty ceiling is unknown
(unparseable) is denied; a request whose tier is unknown is allowed
whenever the ceiling itself is well-formed or unset (fail-open for
routing labels only). -/
theorem routeEligible_lattice (route : ProviderRoute) (tier : String) :
    ((∀ c t, parseClassification route.classificationCeiling = some c →
        parseClassification tier = some t →
        routeEligible route tier =
          decide (classificationLevel c ≥ classificationLevel t)) ∧
     (route.classificationCeiling ≠ "" →
        parseClassification route.classificationCeiling = none →
        routeEligible route tier = false) ∧
     (parseClassification tier = none →
        (route.classificationCeiling = "" ∨
          (parseClassification route.classificationCeiling).isSome) →
        routeEligible route tier = true)) := by
  refine ⟨?_, ?_, ?_⟩
  · intro c t hc ht
    have hne : route.classificationCeiling ≠ "" := by
      intro he
      rw [he] at hc
      simp [parseClassification] at hc
    unfold routeEligible
    rw [if_neg hne, hc, ht]
    unfold classificationAllows
    simp
  · intro hne hno
    unfold routeEligible
    rw [if_neg hne, hno]
  · intro ht hc
    rcases hc with he | hs
    · unfold routeEligible
      rw [if_pos he]
    · unfold routeEligible
      by_cases hne : route.classificationCeiling = ""
      · rw [if_pos hne]
      · rw [if_neg hne]
        cases hp : parseClassification route.classificationCeiling with
        | none => rw [hp] at hs; simp at hs
        | some c => rw [ht]

/-- Witness for C4: a CONFIDENTIAL ceiling admits an INTERNAL request, an
unknown ceiling `"BOGUS"` denies, and an unknown request tier is allowed
under a parseable ceiling. -/
theorem routeEligible_lattice_witness :
    (routeEligible
        { provider := "openai", model := "gpt-4o",
          classificationCeiling := "CONFIDENTIAL" } "INTERNAL" = true ∧
     routeEligible
        { provider := "openai", model := "gpt-4o",
          classificationCeiling := "BOGUS" } "INTERNAL" = false ∧
     routeEligible
        { provider := "openai", model := "gpt-4o",
          classificationCeiling := "PUBLIC" } "MYSTERY" = true) := by
  refine ⟨?_, ?_, ?_⟩
  · have := (routeEligible_lattice
      { provider := "openai", model := "gpt-4o",
        classificationCeiling := "CONFIDENTIAL" } "INTERNAL").1
      "CONFIDENTIAL" "INTERNAL" (by decide) (by decide)
    rw [this]; decide
  · have := (routeEligible_lattice
      { provider := "openai", model := "gpt-4o",
        classificationCeiling := "BOGUS" } "INTERNAL").2.1
      (by decide) (by decide)
    exact this
  · have := (routeEligible_lattice
      { provider := "openai", model := "gpt-4o",
        classificationCeiling := "PUBLIC" } "MYSTERY").2.2
      (by decide) (by decide)
    exact this

/-- C6: the circuit-breaker state machine. In Closed, a success keeps the
state and never resets the failure counter; a Closed failure reaching the
threshold transitions to Open and stamps `openedAt` (below threshold the
breaker stays Closed); any state query at or past the probe interval turns
Open into Half-Open and `Allow` answers true there; a Half-Open success
closes the circuit zeroing both counters; a Half-Open failure reopens and
re-stamps `openedAt`. -/
theorem circuitBreaker_state_machine (cb : CircuitBreaker) (now : Int) :
    ((cb.state = CircuitState.closed →
        cb.recordSuccess.state = CircuitState.closed ∧
        cb.recordSuccess.failures = cb.failures) ∧
     (cb.state = CircuitState.closed →
        cb.failures + 1 ≥ cb.failureThreshold →
        (cb.recordFailure now).state = CircuitState.opened ∧
        (cb.recordFailure now).openedAt = now) ∧
     (cb.state = CircuitState.closed →
        cb.failures + 1 < cb.failureThreshold →
        (cb.recordFailure now).state = CircuitState.closed ∧
        (cb.recordFailure now).failures = cb.failures + 1) ∧
     (cb.state = CircuitState.opened →
        now - cb.openedAt ≥ cb.recoveryProbeInterval →
        (cb.stateQuery now).2 = CircuitState.halfOpen ∧
        (cb.stateQuery now).1.state = CircuitState.halfOpen ∧
        cb.allow now = ({ cb with state := CircuitState.halfOpen }, true)) ∧
     (cb.state = CircuitState.halfOpen →
        cb.recordSuccess.state = CircuitState.closed ∧
        cb.recordSuccess.failures = 0 ∧
        cb.recordSuccess.successes = 0) ∧
     (cb.state = CircuitState.halfOpen →
        (cb.recordFailure now).state = CircuitState.opened ∧
        (cb.recordFailure now).openedAt = now)) := by
  refine ⟨?_, ?_, ?_, ?_, ?_, ?_⟩
  · intro h
    unfold CircuitBreaker.recordSuccess
    rw [h]
    exact ⟨rfl, rfl⟩
  · intro h hth
    unfold CircuitBreaker.recordFailure
    rw [h]
    simp only
    rw [if_pos hth]
    exact ⟨rfl, rfl⟩
  · intro h hth
    unfold CircuitBreaker.recordFailure
    rw [h]
    simp only
    rw [if_neg (Nat.not_le_of_lt hth)]
    exact ⟨rfl, rfl⟩
  · intro h hel
    unfold CircuitBreaker.stateQuery CircuitBreaker.allow
      CircuitBreaker.currentState
    rw [if_pos ⟨h, hel⟩]
    exact ⟨rfl, rfl, rfl⟩
  · intro h
    unfold CircuitBreaker.recordSuccess
    rw [h]
    exact ⟨rfl, rfl, rfl⟩
  · intro h
    unfold CircuitBreaker.recordFailure
    rw [h]
    exact ⟨rfl, rfl⟩

/-- Witness for C6, tracing `TestCircuitBreaker_OpensAfterThreshold` and
`TestCircuitBreaker_HalfOpenAfterProbeInterval`: a threshold-1 breaker
opens on its first failure at time 0, and a query at the 10-unit probe
interval answers Half-Open/allow. -/
theorem circuitBreaker_state_machine_witness :
    (((newCircuitBreaker 1 10).recordFailure 0).state =
        CircuitState.opened ∧
     (((newCircuitBreaker 1 10).recordFailure 0).allow 10).2 = true) := by
  have h1 := (circuitBreaker_state_machine (newCircuitBreaker 1 10) 0).2.1
    (by decide) (by decide)
  have h2 := (circuitBreaker_state_machine
    ((newCircuitBreaker 1 10).recordFailure 0) 10).2.2.2.1
    (by decide) (by decide)
  exact ⟨h1.1, by rw [h2.2.2]⟩

/-- C5: the sliding-window check. Entries at or below `now − W` are pruned;
with post-prune count `c`: when `c < L` the arrival is inserted with its
disambiguator, the TTL is set to `W+1` seconds, the script answers
`(c+1, allowed)`, and the reported remaining is `max 0 (L − (c+1))`
(the returned count); otherwise the script answers `(c, denied)` with
remaining `max 0 (L − c)` and retry-after `W/2`. Reset-at is `now + W` in
both cases. -/
theorem limiterCheck_sliding_window (st : ZSetState)
    (now limit window : Int) (disamb : Nat) :
    ((0 < window → ∀ e ∈ st.entries, e.1 ≤ now - window →
        e ∉ (limiterCheck st now limit window disamb).1.entries) ∧
     (((st.entries.filter
          (fun e => decide (now - window < e.1))).length : Int) < limit →
        limiterCheck st now limit window disamb =
          ({ entries := (now, disamb) ::
               st.entries.filter (fun e => decide (now - window < e.1)),
             ttl := some (window / 1000000 + 1) },
           { allowed := true,
             remaining := max 0 (limit -
               (((st.entries.filter
                   (fun e => decide (now - window < e.1))).length : Int)
                 + 1)),
             resetAt := now + window, retryAfter := 0 })) ∧
     (limit ≤ ((st.entries.filter
          (fun e => decide (now - window < e.1))).length : Int) →
        limiterCheck st now limit window disamb =
          ({ entries :=
               st.entries.filter (fun e => decide (now - window < e.1)),
             ttl := some (window / 1000000 + 1) },
           { allowed := false,
             remaining := max 0 (limit -
               ((st.entries.filter
                   (fun e => decide (now - window < e.1))).length : Int)),
             resetAt := now + window, retryAfter := window / 2 }))) := by
  have hA : ((st.entries.filter
      (fun e => decide (now - window < e.1))).length : Int) < limit →
      limiterCheck st now limit window disamb =
        ({ entries := (now, disamb) ::
             st.entries.filter (fun e => decide (now - window < e.1)),
           ttl := some (window / 1000000 + 1) },
         { allowed := true,
           remaining := max 0 (limit -
             (((st.entries.filter
                 (fun e => decide (now - window < e.1))).length : Int)
               + 1)),
           resetAt := now + window, retryAfter := 0 }) := by
    intro hc
    simp only [limiterCheck, slidingWindowScript, if_pos hc]
    refine congrArg _ ?_
    congr 1
    omega
  have hB : limit ≤ ((st.entries.filter
      (fun e => decide (now - window < e.1))).length : Int) →
      limiterCheck st now limit window disamb =
        ({ entries :=
             st.entries.filter (fun e => decide (now - window < e.1)),
           ttl := some (window / 1000000 + 1) },
         { allowed := false,
           remaining := max 0 (limit -
             ((st.entries.filter
                 (fun e => decide (now - window < e.1))).length : Int)),
           resetAt := now + window, retryAfter := window / 2 }) := by
    intro hc
    simp only [limiterCheck, slidingWindowScript, if_neg (not_lt.mpr hc)]
    refine congrArg _ ?_
    congr 1
    omega
  refine ⟨?_, hA, hB⟩
  intro hw e he hle hmem
  by_cases hc : ((st.entries.filter
      (fun e => decide (now - window < e.1))).length : Int) < limit
  · rw [hA hc] at hmem
    simp only [List.mem_cons, List.mem_filter, decide_eq_true_eq] at hmem
    rcases hmem with hfst | ⟨_, hgt⟩
    · have : e.1 = now := by rw [hfst]
      omega
    · omega
  · rw [hB (not_lt.mp hc)] at hmem
    simp only [List.mem_filter, decide_eq_true_eq] at hmem
    omega

/-- Witness for C5, tracing the spec's S6 scenario shape at small size: a
window holding 2 live arrivals against limit 2 denies the next arrival
with remaining 0 and retry-after `W/2`, while limit 3 admits it. -/
theorem limiterCheck_sliding_window_witness :
    (limiterCheck
        { entries := [(50000000, 1), (60000000, 2), (900000, 3)],
          ttl := some 61 }
        61000000 2 60000000 4 =
      ({ entries := [(50000000, 1), (60000000, 2)], ttl := some 61 },
       { allowed := false, remaining := 0,
         resetAt := 121000000, retryAfter := 30000000 }) ∧
     limiterCheck
        { entries := [(50000000, 1), (60000000, 2), (900000, 3)],
          ttl := some 61 }
        61000000 5 60000000 4 =
      ({ entries := [(61000000, 4), (50000000, 1), (60000000, 2)],
         ttl := some 61 },
       { allowed := true, remaining := 2,
         resetAt := 121000000, retryAfter := 0 })) := by
  constructor
  · have := (limiterCheck_sliding_window
      { entries := [(50000000, 1), (60000000, 2), (900000, 3)],
        ttl := some 61 }
      61000000 2 60000000 4).2.2 (by decide)
    rw [this]
    decide
  · have := (limiterCheck_sliding_window
      { entries := [(50000000, 1), (60000000, 2), (900000, 3)],
        ttl := some 61 }
      61000000 5 60000000 4).2.1 (by decide)
    rw [this]
    decide

/-- C2: recording spend after a successful completion increments the
team's daily budget key by the cost, leaves every other key untouched, and
sets the key to expire at end-of-day UTC plus one hour; a zero or negative
cost leaves the store unchanged. -/
theorem recordSpend_daily_counter (st : BudgetStore) (now : Nat)
    (teamID : String) (costCents : Int) :
    ((0 < costCents →
        (completionRecordSpend st now teamID costCents).counters
            (dailyBudgetKey teamID (now / 86400)) =
          st.counters (dailyBudgetKey teamID (now / 86400)) + costCents ∧
        (completionRecordSpend st now teamID costCents).expiry
            (dailyBudgetKey teamID (now / 86400)) =
          some (endOfDayUTC now + 3600) ∧
        ∀ k, k ≠ dailyBudgetKey teamID (now / 86400) →
          (completionRecordSpend st now teamID costCents).counters k =
            st.counters k ∧
          (completionRecordSpend st now teamID costCents).expiry k =
            st.expiry k) ∧
     (costCents ≤ 0 →
        completionRecordSpend st now teamID costCents = st)) := by
  constructor
  · intro hpos
    have hno : ¬(False ∨ costCents ≤ 0) := by
      simp only [false_or, not_le]
      exact hpos
    unfold completionRecordSpend recordSpend
    simp only [Bool.false_eq_true, false_or, not_le]
    rw [if_neg (by omega : ¬costCents ≤ 0)]
    refine ⟨by simp, by simp, ?_⟩
    intro k hk
    constructor
    · simp only
      rw [if_neg hk]
    · simp only
      rw [if_neg hk]
  · intro hle
    unfold completionRecordSpend recordSpend
    rw [if_pos (Or.inr hle)]

/-- Witness for C2: a 500-cent completion at `now = 100000` s lands on the
day-1 key with expiry `2*86400 + 3600`, and a 0-cent completion is a
no-op. -/
theorem recordSpend_daily_counter_witness :
    ((completionRecordSpend
        { counters := fun _ => 0, expiry := fun _ => none }
        100000 "team-1" 500).counters
          (dailyBudgetKey "team-1" 1) = 500 ∧
     (completionRecordSpend
        { counters := fun _ => 0, expiry := fun _ => none }
        100000 "team-1" 500).expiry
          (dailyBudgetKey "team-1" 1) = some 176400 ∧
     completionRecordSpend
        { counters := fun _ => 0, expiry := fun _ => none }
        100000 "team-1" 0 =
       { counters := fun _ => 0, expiry := fun _ => none }) := by
  have h := recordSpend_daily_counter
    { counters := fun _ => 0, expiry := fun _ => none }
    100000 "team-1" 500
  have h0 := (recordSpend_daily_counter
    { counters := fun _ => 0, expiry := fun _ => none }
    100000 "team-1" 0).2 (by decide)
  refine ⟨?_, ?_, h0⟩
  · have := (h.1 (by decide)).1
    rw [this]
    decide
  · have := (h.1 (by decide)).2.1
    rw [this]
    decide

/-- C7: the Anthropic → canonical stream translation table. A
`content_block_delta` whose delta type is `text_delta` emits one canonical
delta chunk carrying exactly the text; a `message_delta` emits a chunk with
an empty delta and the mapped finish reason; `message_stop` yields the DONE
sentinel; any other event type — including a `content_block_delta` whose
delta is not a text delta — and any unparseable payload is skipped. -/
theorem transformStreamChunk_table (event : AnthropicEvent) :
    ((event.type = "content_block_delta" → event.delta.type = "text_delta" →
        transformStreamChunk (some event) =
          StreamChunkResult.emit
            { choices := [{ index := event.index
                            delta := { role := ""
                                       content := event.delta.text }
                            finishReason := none }] }) ∧
     (event.type = "content_block_delta" → event.delta.type ≠ "text_delta" →
        transformStreamChunk (some event) = StreamChunkResult.skip) ∧
     (event.type = "message_delta" →
        transformStreamChunk (some event) =
          StreamChunkResult.emit
            { choices := [{ index := 0
                            delta := { role := "", content := "" }
                            finishReason :=
                              some (mapStopReason
                                event.delta.stopReason) }] }) ∧
     (event.type = "message_stop" →
        transformStreamChunk (some event) = StreamChunkResult.doneSentinel) ∧
     (event.type ≠ "content_block_delta" → event.type ≠ "message_delta" →
        event.type ≠ "message_stop" →
        transformStreamChunk (some event) = StreamChunkResult.skip) ∧
     transformStreamChunk none = StreamChunkResult.skip) := by
  refine ⟨?_, ?_, ?_, ?_, ?_, rfl⟩
  · intro ht hd
    simp only [transformStreamChunk]
    rw [if_pos ht, if_pos hd]
  · intro ht hd
    simp only [transformStreamChunk]
    rw [if_pos ht, if_neg hd]
  · intro ht
    have hne : event.type ≠ "content_block_delta" := by
      rw [ht]; decide
    simp only [transformStreamChunk]
    rw [if_neg hne, if_pos ht]
  · intro ht
    have h1 : event.type ≠ "content_block_delta" := by rw [ht]; decide
    have h2 : event.type ≠ "message_delta" := by rw [ht]; decide
    simp only [transformStreamChunk]
    rw [if_neg h1, if_neg h2, if_pos ht]
  · intro h1 h2 h3
    simp only [transformStreamChunk]
    rw [if_neg h1, if_neg h2, if_neg h3]

/-- Witness for C7, tracing the spec's S5 stream: the `"Hello"` text delta
emits a canonical chunk with content `"Hello"`, `message_stop` yields the
DONE sentinel, `message_start` is skipped, and an unparseable payload is
skipped. -/
theorem transformStreamChunk_table_witness :
    (transformStreamChunk (some
        { type := "content_block_delta", index := 0
          delta := { type := "text_delta", text := "Hello"
                     stopReason := "" } }) =
      StreamChunkResult.emit
        { choices := [{ index := 0
                        delta := { role := "", content := "Hello" }
                        finishReason := none }] } ∧
     transformStreamChunk (some
        { type := "message_stop", index := 0
          delta := { type := "", text := "", stopReason := "" } }) =
      StreamChunkResult.doneSentinel ∧
     transformStreamChunk (some
        { type := "message_start", index := 0
          delta := { type := "", text := "", stopReason := "" } }) =
      StreamChunkResult.skip ∧
     transformStreamChunk none = StreamChunkResult.skip) :=
  ⟨(transformStreamChunk_table
      { type := "content_block_delta", index := 0
        delta := { type := "text_delta", text := "Hello"
                   stopReason := "" } }).1 (by decide) (by decide),
   (transformStreamChunk_table
      { type := "message_stop", index := 0
        delta := { type := "", text := "", stopReason := "" } }).2.2.2.1
     (by decide),
   (transformStreamChunk_table
      { type := "message_start", index := 0
        delta := { type := "", text := "", stopReason := "" } }).2.2.2.2.1
     (by decide) (by decide) (by decide),
   (transformStreamChunk_table
      { type := "message_start", index := 0
        delta := { type := "", text := "", stopReason := "" } }).2.2.2.2.2⟩

/-- Running the chain over a prefix without enabled blockers prepends that
prefix's enabled results and continues into the rest of the chain. -/
theorem chainRun_append_no_block (req : AegisRequest)
    (pre rest : List ContentFilter)
    (h : ∀ g ∈ pre, g.enabled = true →
        (g.scan req).action ≠ FilterAction.block) :
    chainRun req (pre ++ rest) =
      ((pre.filter (fun g => g.enabled)).map (fun g => g.scan req)
          ++ (chainRun req rest).1,
       (chainRun req rest).2) := by
  induction pre with
  | nil => simp [chainRun]
  | cons g gs ih =>
    have hgs : ∀ g ∈ gs, g.enabled = true →
        (g.scan req).action ≠ FilterAction.block := by
      intro x hx
      exact h x (List.mem_cons_of_mem g hx)
    by_cases hg : g.enabled = true
    · have hnb := h g (List.mem_cons_self g gs) hg
      simp only [List.cons_append, chainRun, if_pos hg, if_neg hnb,
        List.filter_cons_of_pos hg, List.map_cons, List.append_eq,
        ih hgs, List.cons_append]
    · simp only [List.cons_append, chainRun, if_neg hg,
        List.filter_cons_of_neg hg, List.append_eq, ih hgs]

/-- C8: short-circuit and skip semantics of the filter chain. If an
enabled filter `f` blocks and no enabled filter before it blocks, the
chain's collected results are exactly the enabled results up to and
including `f` — independent of every filter after `f`, which is therefore
never executed — the handler returns the 451 content-blocked outcome, and
no provider dispatch occurs. Disabled filters are skipped outright, and a
chain whose enabled filters never block (flags included) runs to the end
with no short-circuit result. -/
theorem chain_short_circuit (req : AegisRequest)
    (models : String → Option ModelMapping)
    (registered healthAllows : String → Bool)
    (pre post gs : List ContentFilter) (f g : ContentFilter) :
    ((f.enabled = true → (f.scan req).action = FilterAction.block →
      (∀ x ∈ pre, x.enabled = true →
          (x.scan req).action ≠ FilterAction.block) →
        chainRun req (pre ++ f :: post) =
          ((pre.filter (fun x => x.enabled)).map (fun x => x.scan req)
              ++ [f.scan req],
           some (f.scan req)) ∧
        (req.model ≠ "" → req.messages ≠ [] →
          chatCompletionsStage (pre ++ f :: post) models registered
              healthAllows req =
            ChatOutcome.contentBlocked (f.scan req) ∧
          ∀ p m, chatCompletionsStage (pre ++ f :: post) models registered
              healthAllows req ≠ ChatOutcome.dispatchTo p m)) ∧
     (g.enabled = false → chainRun req (g :: gs) = chainRun req gs) ∧
     ((∀ x ∈ gs, x.enabled = true →
          (x.scan req).action ≠ FilterAction.block) →
        chainRun req gs =
          ((gs.filter (fun x => x.enabled)).map (fun x => x.scan req),
           none))) := by
  refine ⟨?_, ?_, ?_⟩
  · intro hf hblock hpre
    have hrun : chainRun req (pre ++ f :: post) =
        ((pre.filter (fun x => x.enabled)).map (fun x => x.scan req)
            ++ [f.scan req],
         some (f.scan req)) := by
      rw [chainRun_append_no_block req pre (f :: post) hpre]
      simp only [chainRun, if_pos hf, if_pos hblock]
    refine ⟨hrun, ?_⟩
    intro hm hmsg
    have hstage : chatCompletionsStage (pre ++ f :: post) models registered
        healthAllows req = ChatOutcome.contentBlocked (f.scan req) := by
      unfold chatCompletionsStage
      rw [if_neg hm, if_neg hmsg, hrun]
    exact ⟨hstage, by intro p m hco; rw [hstage] at hco; exact
      ChatOutcome.noConfusion hco⟩
  · intro hg
    simp only [chainRun, hg]
    simp
  · intro hall
    have := chainRun_append_no_block req gs [] hall
    simpa [chainRun] using this

/-- Witness for C8: with a disabled filter, a flagging filter, a blocking
filter, and a never-reached trailing filter, the chain reports the flag
and the block only, stops at the block, and the handler short-circuits to
the content-blocked outcome. -/
theorem chain_short_circuit_witness :
    (chainRun sampleRequest
        [sampleSecretsOff, sampleInjectionFlag, samplePiiBlock,
         samplePolicyPass] =
      ([sampleInjectionFlag.scan sampleRequest,
        samplePiiBlock.scan sampleRequest],
       some (samplePiiBlock.scan sampleRequest)) ∧
     chatCompletionsStage
        [sampleSecretsOff, sampleInjectionFlag, samplePiiBlock,
         samplePolicyPass]
        (fun _ => none) (fun _ => true) (fun _ => true) sampleRequest =
      ChatOutcome.contentBlocked (samplePiiBlock.scan sampleRequest)) := by
  have h := (chain_short_circuit sampleRequest
    (fun _ => none) (fun _ => true) (fun _ => true)
    [sampleSecretsOff, sampleInjectionFlag] [samplePolicyPass] []
    samplePiiBlock sampleSecretsOff).1
    rfl rfl (by
      intro x hx
      simp only [List.mem_cons, List.not_mem_nil, or_false] at hx
      rcases hx with h1 | h1
      · intro he
        rw [h1] at he
        exact absurd he (by decide)
      · intro _ ha
        rw [h1] at ha
        exact absurd ha (by decide))
  refine ⟨?_, ?_⟩
  · have h1 := h.1
    simpa [sampleSecretsOff, sampleInjectionFlag] using h1
  · have h2 := (h.2 (by decide) (by decide)).1
    simpa using h2

/-- Messages whose RPC succeeds with no (or zero) detections do not affect
the scan loop's outcome. -/
theorem piiScanLoop_append_clean (failOpen : Bool) (classification : String)
    (rpc : Message → Except Unit ScanPIIResponse)
    (pre rest : List Message)
    (h : ∀ m ∈ pre, ∃ resp, rpc m = Except.ok resp ∧
        (resp.detected = false ∨ resp.detections = 0)) :
    piiScanLoop failOpen classification rpc (pre ++ rest) =
      piiScanLoop failOpen classification rpc rest := by
  induction pre with
  | nil => rfl
  | cons m ms ih =>
    obtain ⟨resp, hok, hclean⟩ := h m (List.mem_cons_self m ms)
    have hms : ∀ x ∈ ms, ∃ resp, rpc x = Except.ok resp ∧
        (resp.detected = false ∨ resp.detections = 0) := by
      intro x hx
      exact h x (List.mem_cons_of_mem m hx)
    rcases hclean with hfalse | hzero
    · simp only [List.cons_append, piiScanLoop, hok, hfalse]
      exact ih hms
    · have hpass : classificationAction classification resp.detections =
          FilterAction.pass := by
        unfold classificationAction
        rw [if_pos hzero]
      simp only [List.cons_append, piiScanLoop, hok, hpass]
      by_cases hd : resp.detected = true
      · rw [if_pos hd, if_neg (by decide), if_neg (by decide)]
        exact ih hms
      · rw [if_neg hd]
        exact ih hms

/-- C9: the PII filter's decision table. With the filter enabled but no
live connection the result is Pass under fail-open and the fail-closed
Block otherwise; the same rule applies when the first effective RPC
(after messages with no detections) hits a transport error; when it
instead reports `n > 0` detections, RESTRICTED and CONFIDENTIAL requests
are blocked and INTERNAL and PUBLIC requests are flagged, both carrying
the detection count; and when every message scans clean the result is
Pass. -/
theorem piiScanRequest_decision_table (failOpen : Bool)
    (rpc : Message → Except Unit ScanPIIResponse) (req : AegisRequest)
    (pre rest : List Message) (m : Message) (n : Nat) :
    ((piiScanRequest false failOpen rpc req =
        if failOpen then piiPassResult else piiBlockNotConnected) ∧
     (req.messages = pre ++ m :: rest →
      (∀ x ∈ pre, ∃ resp, rpc x = Except.ok resp ∧
          (resp.detected = false ∨ resp.detections = 0)) →
      rpc m = Except.error () →
        piiScanRequest true failOpen rpc req =
          if failOpen then piiPassResult else piiBlockUnavailable) ∧
     (req.messages = pre ++ m :: rest →
      (∀ x ∈ pre, ∃ resp, rpc x = Except.ok resp ∧
          (resp.detected = false ∨ resp.detections = 0)) →
      rpc m = Except.ok { detected := true, detections := n } →
      n ≠ 0 →
        ((req.classification = "RESTRICTED" ∨
            req.classification = "CONFIDENTIAL" →
          piiScanRequest true failOpen rpc req = piiDetectedBlock n) ∧
         (req.classification = "INTERNAL" ∨ req.classification = "PUBLIC" →
          piiScanRequest true failOpen rpc req = piiDetectedFlag n))) ∧
     ((∀ x ∈ req.messages, ∃ resp, rpc x = Except.ok resp ∧
          (resp.detected = false ∨ resp.detections = 0)) →
        piiScanRequest true failOpen rpc req = piiPassResult)) := by
  refine ⟨rfl, ?_, ?_, ?_⟩
  · intro hmsgs hclean herr
    unfold piiScanRequest
    rw [if_neg (by decide : ¬(true = false))]
    rw [hmsgs, piiScanLoop_append_clean failOpen req.classification rpc
      pre (m :: rest) hclean]
    simp only [piiScanLoop, herr]
  · intro hmsgs hclean hok hn
    have hwalk : piiScanRequest true failOpen rpc req =
        piiScanLoop failOpen req.classification rpc (m :: rest) := by
      unfold piiScanRequest
      rw [hmsgs]
      exact piiScanLoop_append_clean failOpen req.classification rpc
        pre (m :: rest) hclean
    constructor
    · intro hcls
      have hact : classificationAction req.classification n =
          FilterAction.block := by
        unfold classificationAction
        rw [if_neg hn, if_pos hcls]
      rw [hwalk]
      simp [piiScanLoop, hok, hact]
    · intro hcls
      have hact : classificationAction req.classification n =
          FilterAction.flag := by
        unfold classificationAction
        rcases hcls with hi | hp
        · rw [if_neg hn, if_neg (by rw [hi]; decide), if_pos hi]
        · rw [if_neg hn, if_neg (by rw [hp]; decide)]
          by_cases hint : req.classification = "INTERNAL"
          · rw [if_pos hint]
          · rw [if_neg hint]
      rw [hwalk]
      simp [piiScanLoop, hok, hact]
  · intro hclean
    unfold piiScanRequest
    rw [if_neg (by decide : ¬(true = false))]
    have := piiScanLoop_append_clean failOpen req.classification rpc
      req.messages [] hclean
    simpa using this

/-- Witness for C9: one clean message then a two-detection message blocks
a CONFIDENTIAL request; and the disconnected filter passes under
fail-open. -/
theorem piiScanRequest_decision_table_witness :
    (piiScanRequest true false
        (fun msg => if msg.content = "clean" then
            Except.ok { detected := false, detections := 0 }
          else Except.ok { detected := true, detections := 2 })
        { requestID := "r2", organizationID := "o", teamID := "t"
          userID := "", apiKeyID := "k", classification := "CONFIDENTIAL"
          model := "gpt-4o"
          messages := [{ role := "user", content := "clean", name := "" },
                       { role := "user", content := "john", name := "" }]
          stream := false, project := "", preferProvider := ""
          traceContext := "" } =
      piiDetectedBlock 2 ∧
     piiScanRequest false true
        (fun _ => Except.error ())
        { requestID := "r2", organizationID := "o", teamID := "t"
          userID := "", apiKeyID := "k", classification := "INTERNAL"
          model := "gpt-4o"
          messages := [{ role := "user", content := "x", name := "" }]
          stream := false, project := "", preferProvider := ""
          traceContext := "" } =
      piiPassResult) := by
  constructor
  · have h := ((piiScanRequest_decision_table false
      (fun msg => if msg.content = "clean" then
          Except.ok { detected := false, detections := 0 }
        else Except.ok { detected := true, detections := 2 })
      { requestID := "r2", organizationID := "o", teamID := "t"
        userID := "", apiKeyID := "k", classification := "CONFIDENTIAL"
        model := "gpt-4o"
        messages := [{ role := "user", content := "clean", name := "" },
                     { role := "user", content := "john", name := "" }]
        stream := false, project := "", preferProvider := ""
        traceContext := "" }
      [{ role := "user", content := "clean", name := "" }] []
      { role := "user", content := "john", name := "" } 2).2.2.1
      (by decide)
      (by
        intro x hx
        simp only [List.mem_singleton] at hx
        refine ⟨{ detected := false, detections := 0 }, ?_, Or.inl rfl⟩
        rw [hx]
        rfl)
      rfl (by decide)).1 (Or.inr (by decide))
    exact h
  · have h := (piiScanRequest_decision_table true
      (fun _ => Except.error ())
      { requestID := "r2", organizationID := "o", teamID := "t"
        userID := "", apiKeyID := "k", classification := "INTERNAL"
        model := "gpt-4o"
        messages := [{ role := "user", content := "x", name := "" }]
        stream := false, project := "", preferProvider := ""
        traceContext := "" }
      [] [] { role := "user", content := "x", name := "" } 0).1
    simpa using h

/-- `resolveRoute` is the plain walk of `[primary] ++ fallback`. -/
theorem resolveRoute_eq_walk (models : String → Option ModelMapping)
    (registered healthAllows : String → Bool)
    (modelName classification : String) :
    resolveRoute models registered healthAllows modelName classification =
      match models modelName with
      | none => Except.error RouteError.unknownModel
      | some mapping =>
        match resolveFallbacks registered healthAllows classification
            (mapping.primary :: mapping.fallback) with
        | some r => Except.ok r
        | none => Except.error RouteError.noEligibleProvider := by
  unfold resolveRoute
  cases models modelName with
  | none => rfl
  | some mapping =>
    by_cases hp : routeQualifies registered healthAllows classification
        mapping.primary
    · simp [resolveFallbacks, hp]
    · simp [resolveFallbacks, hp]

/-- C3: the preferred-provider hint. If the hint names a provider that
appears in the candidate list, the re-ordered list is a permutation of the
original whose first element is that provider's candidate; if the hint
names no provider in the list, the list is unchanged, and hinted route
resolution returns exactly what plain resolution returns. -/
theorem providerHint_reorder (models : String → Option ModelMapping)
    (registered healthAllows : String → Bool)
    (hint modelName classification : String) (cs : List ProviderRoute) :
    ((hint ≠ "" → (∃ c ∈ cs, c.provider = hint) →
        (applyProviderHint hint cs).Perm cs ∧
        ∃ c rest, applyProviderHint hint cs = c :: rest ∧
          c.provider = hint) ∧
     ((∀ c ∈ cs, c.provider ≠ hint) →
        applyProviderHint hint cs = cs) ∧
     ((∀ mapping, models modelName = some mapping →
        ∀ c ∈ mapping.primary :: mapping.fallback, c.provider ≠ hint) →
        resolveRouteHinted models registered healthAllows hint modelName
            classification =
          resolveRoute models registered healthAllows modelName
            classification)) := by
  have hunchanged : ∀ ds : List ProviderRoute,
      (∀ c ∈ ds, c.provider ≠ hint) → applyProviderHint hint ds = ds := by
    intro ds hds
    unfold applyProviderHint
    rw [if_neg]
    intro ⟨_, hany⟩
    rw [List.any_eq_true] at hany
    obtain ⟨c, hc, hch⟩ := hany
    exact hds c hc (by simpa using hch)
  refine ⟨?_, hunchanged cs, ?_⟩
  · intro hne hmem
    obtain ⟨c0, hc0, hc0h⟩ := hmem
    have hcond : hint ≠ "" ∧ cs.any (fun c => c.provider = hint) := by
      refine ⟨hne, ?_⟩
      rw [List.any_eq_true]
      exact ⟨c0, hc0, by simpa using hc0h⟩
    constructor
    · unfold applyProviderHint
      rw [if_pos hcond]
      have heq : cs.filter (fun c => decide (¬c.provider = hint)) =
          cs.filter (fun c => !decide (c.provider = hint)) := by
        refine congrArg (fun p => List.filter p cs) ?_
        funext c
        exact decide_not
      rw [heq]
      exact List.filter_append_perm (fun c => decide (c.provider = hint)) cs
    · unfold applyProviderHint
      rw [if_pos hcond]
      have hfne : cs.filter (fun c => decide (c.provider = hint)) ≠ [] := by
        rw [ne_eq, List.filter_eq_nil_iff]
        push_neg
        exact ⟨c0, hc0, by simpa using hc0h⟩
      cases hf : cs.filter (fun c => decide (c.provider = hint)) with
      | nil => exact absurd hf hfne
      | cons c rest =>
        refine ⟨c, rest ++ cs.filter (fun x => decide (¬x.provider = hint)),
          rfl, ?_⟩
        have : c ∈ cs.filter (fun c => decide (c.provider = hint)) := by
          rw [hf]
          exact List.mem_cons_self c rest
        have := List.of_mem_filter this
        simpa using this
  · intro hall
    unfold resolveRouteHinted
    rw [resolveRoute_eq_walk]
    cases hm : models modelName with
    | none => rfl
    | some mapping =>
      have h := hunchanged (mapping.primary :: mapping.fallback)
        (hall mapping hm)
      simp only [h]

/-- Witness for C3: hinting `anthropic` over an `[openai, anthropic]`
candidate list brings `anthropic` first while keeping both candidates, and
hinting a provider outside the list leaves hinted resolution identical to
plain resolution. -/
theorem providerHint_reorder_witness :
    (applyProviderHint "anthropic" [routeOpenAIConf, routeAnthropicConf] =
      [routeAnthropicConf, routeOpenAIConf] ∧
     applyProviderHint "mistral" [routeOpenAIConf] = [routeOpenAIConf] ∧
     resolveRouteHinted modelsOpenAIOnly
        (fun p => p = "openai") (fun _ => true)
        "mistral" "gpt-4o" "INTERNAL" =
      resolveRoute modelsOpenAIOnly
        (fun p => p = "openai") (fun _ => true) "gpt-4o" "INTERNAL") := by
  refine ⟨by decide, ?_, ?_⟩
  · exact (providerHint_reorder (fun _ => none) (fun _ => true)
      (fun _ => true) "mistral" "" "" [routeOpenAIConf]).2.1 (by decide)
  · exact (providerHint_reorder modelsOpenAIOnly
      (fun p => p = "openai") (fun _ => true)
      "mistral" "gpt-4o" "INTERNAL" []).2.2
      (by
        intro mapping hm
        simp only [modelsOpenAIOnly, if_true, Option.some.injEq] at hm
        subst hm
        decide)

/-- C10: the authentication boundary's error mapping. For a well-formed
Bearer header whose token is non-empty, a key-store lookup failure is
answered with 500 `server_error` / `internal_error`, while a nil principal
is answered with 401 `authentication_error` / `invalid_api_key`; in the
store-failure case the response code is not `invalid_api_key`, so a store
failure is never presented as an invalid key. -/
theorem authMiddleware_error_mapping (hashKey : String → String)
    (lookup : String → Except Unit (Option KeyMetadata))
    (reqID authHeader token : String)
    (hne : authHeader ≠ "")
    (htok : trimBearer authHeader = token)
    (hdiff : token ≠ authHeader) (htne : token ≠ "") :
    ((lookup (hashKey token) = Except.error () →
        authMiddleware hashKey lookup reqID authHeader =
          AuthDecision.denied
            { status := 500
              body := { message := "Internal error during authentication"
                        errType := "server_error", code := "internal_error"
                        aegisReqID := reqID } } ∧
        ∀ resp, authMiddleware hashKey lookup reqID authHeader =
            AuthDecision.denied resp → resp.body.code ≠ "invalid_api_key") ∧
     (lookup (hashKey token) = Except.ok none →
        authMiddleware hashKey lookup reqID authHeader =
          AuthDecision.denied
            { status := 401
              body := { message := "Invalid API key"
                        errType := "authentication_error"
                        code := "invalid_api_key"
                        aegisReqID := reqID } })) := by
  have hmid : authMiddleware hashKey lookup reqID authHeader =
      match lookup (hashKey token) with
      | Except.error _ =>
        AuthDecision.denied (writeInternalError reqID
          "Internal error during authentication")
      | Except.ok none =>
        AuthDecision.denied (writeAuthError reqID "Invalid API key")
      | Except.ok (some meta) => AuthDecision.proceed meta := by
    unfold authMiddleware
    rw [if_neg hne]
    simp only [htok]
    rw [if_neg hdiff, if_neg htne]
  constructor
  · intro herr
    have heq : authMiddleware hashKey lookup reqID authHeader =
        AuthDecision.denied (writeInternalError reqID
          "Internal error during authentication") := by
      rw [hmid, herr]
    refine ⟨by rw [heq]; rfl, ?_⟩
    intro resp hresp
    rw [heq] at hresp
    have : resp = writeInternalError reqID
        "Internal error during authentication" := by
      cases hresp
      rfl
    rw [this]
    simp [writeInternalError, writeError]
  · intro hnone
    rw [hmid, hnone]
    rfl

/-- Witness for C10: with the header `Bearer sk-123`, a failing store
yields the 500 internal error and a nil principal yields the 401 invalid
key error. -/
theorem authMiddleware_error_mapping_witness :
    (authMiddleware (fun t => t) (fun _ => Except.error ())
        "req-1" "Bearer sk-123" =
      AuthDecision.denied
        { status := 500
          body := { message := "Internal error during authentication"
                    errType := "server_error", code := "internal_error"
                    aegisReqID := "req-1" } } ∧
     authMiddleware (fun t => t) (fun _ => Except.ok none)
        "req-1" "Bearer sk-123" =
      AuthDecision.denied
        { status := 401
          body := { message := "Invalid API key"
                    errType := "authentication_error"
                    code := "invalid_api_key"
                    aegisReqID := "req-1" } }) := by
  constructor
  · exact ((authMiddleware_error_mapping (fun t => t)
      (fun _ => Except.error ()) "req-1" "Bearer sk-123" "sk-123"
      (by decide) (by decide) (by decide) (by decide)).1 rfl).1
  · exact (authMiddleware_error_mapping (fun t => t)
      (fun _ => Except.ok none) "req-1" "Bearer sk-123" "sk-123"
      (by decide) (by decide) (by decide) (by decide)).2 rfl

end Aegis

